import Mathlib

/-!
Shallow embedding of the IGDB reverse proxy (src/index.ts, the exported
`fetch` handler and its inner `getAppToken`) and proofs about it.

Modelling conventions:
* The identity provider and the backend are oracles: the environment of one
  inbound call supplies the provider's response to the first and second token
  exchange and the backend's response to the first and second forward, each as
  `Except String _` where `.error m` models the network call throwing with
  message `m`.
* A `ProviderResponse` carries the HTTP status, the raw text body (used in the
  thrown error message on a non-2xx status) and the parsed `access_token`
  field of the JSON body (`none` models an absent field).
* The handler returns the trace of outbound network events (token exchanges
  and backend forwards), the response handed to the caller, and the optional
  cache write (`caches.default.put`) with its key (the inbound request URL).
* Strings are Lean `String`s; statuses are `Nat`.
-/

deriving instance DecidableEq for Except

namespace IgdbProxy

/-- Substring test: `listStarts sub l` holds when `sub` is an initial
segment of `l`. -/
def listStarts : List Char → List Char → Bool
  | [], _ => true
  | _ :: _, [] => false
  | a :: as, b :: bs => a == b && listStarts as bs

/-- `startsW pre s`: the string `s` starts with `pre` (char-list based so
that the kernel can evaluate it). -/
def startsW (pre s : String) : Bool := listStarts pre.data s.data

/-- Drop the first `n` characters of a string. -/
def dropChars (n : Nat) (s : String) : String := String.mk (s.data.drop n)

/-- Whitespace test used by `trimStr` (the whitespace characters relevant to
this model). -/
def isWS (c : Char) : Bool := c = ' ' || c = '\t' || c = '\n' || c = '\r'

/-- JavaScript `String.prototype.trim`: remove whitespace from both ends. -/
def trimStr (s : String) : String :=
  String.mk (((s.data.dropWhile isWS).reverse.dropWhile isWS).reverse)

/-- Worker environment bindings: `IGDB_CLIENT_ID` and `IGDB_CLIENT_SECRET`. -/
structure Env where
  clientId : String
  clientSecret : String
deriving Repr, DecidableEq

/-- Response of the identity provider to the token exchange.  `accessToken`
models the `access_token` field of the parsed JSON body (`none` = absent). -/
structure ProviderResponse where
  status : Nat
  body : String
  accessToken : Option String
deriving Repr, DecidableEq

/-- Response of the IGDB backend to a forwarded request. -/
structure BackendResponse where
  status : Nat
  body : String
deriving Repr, DecidableEq

/-- The outbound request the proxy sends to the IGDB backend
(`fetch(igdbApiUrl, {...})` in the source). -/
structure BackendRequest where
  url : String
  method : String
  clientID : String
  authorization : String
  contentType : String
  body : String
deriving Repr, DecidableEq

/-- Response handed back to the caller.  Headers are modelled by the two
fields the source ever sets: `Content-Type` and `Cache-Control`. -/
structure CallerResponse where
  status : Nat
  body : String
  contentType : Option String
  cacheControl : Option String
deriving Repr, DecidableEq

/-- An outbound network event of one inbound call: a POST to the identity
provider's token URL, or a forward to the backend. -/
inductive Event where
  | acquireToken (url : String)
  | forward (req : BackendRequest)
deriving Repr, DecidableEq

/-- Oracle for one inbound call: what the identity provider answers to the
first and (if reached) second token exchange, and what the backend answers to
the first and (if reached) second forward.  `.error m` models the network
call throwing with message `m`. -/
structure Oracle where
  provider1 : Except String ProviderResponse
  backend1 : Except String BackendResponse
  provider2 : Except String ProviderResponse
  backend2 : Except String BackendResponse

/-- `Response.ok` of the fetch API: status in [200, 299]. -/
def statusOk (s : Nat) : Bool := 200 ≤ s && s ≤ 299

/-- The token URL built by `getAppToken`; the client id and secret are
embedded untrimmed as query parameters. -/
def tokenUrl (env : Env) : String :=
  "https://id.twitch.tv/oauth2/token?client_id=" ++ env.clientId ++
    "&client_secret=" ++ env.clientSecret ++ "&grant_type=client_credentials"

/-- `getAppToken`'s treatment of the provider's response: non-ok status
throws with status and body; then `tokenData.access_token?.trim()` must be a
non-empty string, else it throws the invalid-format error. -/
def getAppToken (pr : ProviderResponse) : Except String String :=
  if statusOk pr.status = false then
    .error ("Failed to fetch IGDB token: " ++ toString pr.status ++ " - " ++ pr.body)
  else
    match pr.accessToken with
    | none => .error "Invalid response format from token endpoint"
    | some raw =>
      if trimStr raw = "" then .error "Invalid response format from token endpoint"
      else .ok (trimStr raw)

/-- `url.pathname.replace(/^\/api\//, "")`: drop a leading `/api/` if
present (the regex is anchored and requires the trailing slash). -/
def stripApi (p : String) : String :=
  if startsW "/api/" p then dropChars 5 p else p

/-- `igdbEndpoint.replace(/^\//, "")`: drop one leading slash if present. -/
def stripSlash (s : String) : String :=
  if startsW "/" s then dropChars 1 s else s

/-- Fixed base of the backend URL. -/
def igdbBase : String := "https://api.igdb.com/v4/"

/-- The outbound backend request: POST to `igdbBase ++ endpoint` with the
trimmed client id, bearer token, `text/plain` content type and the incoming
body passed through unmodified. -/
def mkForward (env : Env) (endpoint token body : String) : BackendRequest :=
  { url := igdbBase ++ endpoint
    method := "POST"
    clientID := trimStr env.clientId
    authorization := "Bearer " ++ token
    contentType := "text/plain"
    body := body }

/-- Token acquisition, first forward, and the single reactive retry on a 401:
returns the trace of outbound events together with either the final backend
response or the message of the exception that aborted the call. -/
def forwardWithRetry (env : Env) (endpoint body : String) (o : Oracle) :
    List Event × Except String BackendResponse :=
  match o.provider1 with
  | .error m => ([.acquireToken (tokenUrl env)], .error m)
  | .ok pr1 =>
    match getAppToken pr1 with
    | .error m => ([.acquireToken (tokenUrl env)], .error m)
    | .ok token =>
      match o.backend1 with
      | .error m =>
        ([.acquireToken (tokenUrl env), .forward (mkForward env endpoint token body)], .error m)
      | .ok r1 =>
        if r1.status = 401 then
          match o.provider2 with
          | .error m =>
            ([.acquireToken (tokenUrl env), .forward (mkForward env endpoint token body),
              .acquireToken (tokenUrl env)], .error m)
          | .ok pr2 =>
            match getAppToken pr2 with
            | .error m =>
              ([.acquireToken (tokenUrl env), .forward (mkForward env endpoint token body),
                .acquireToken (tokenUrl env)], .error m)
            | .ok token2 =>
              match o.backend2 with
              | .error m =>
                ([.acquireToken (tokenUrl env), .forward (mkForward env endpoint token body),
                  .acquireToken (tokenUrl env), .forward (mkForward env endpoint token2 body)],
                 .error m)
              | .ok r2 =>
                ([.acquireToken (tokenUrl env), .forward (mkForward env endpoint token body),
                  .acquireToken (tokenUrl env), .forward (mkForward env endpoint token2 body)],
                 .ok r2)
        else
          ([.acquireToken (tokenUrl env), .forward (mkForward env endpoint token body)], .ok r1)

/-- Body of the 400 response: `JSON.stringify({error: "Missing IGDB endpoint
in path. Expected /api/<endpoint>."})`. -/
def missingEndpointBody : String :=
  "\x7b\"error\":\"Missing IGDB endpoint in path. Expected /api/<endpoint>.\"\x7d"

/-- JSON string escaping of `JSON.stringify` restricted to the two characters
that can occur in the messages this model produces. -/
def jsonEscape (s : String) : String :=
  String.join (s.data.map fun c =>
    if c = '\\' then "\\\\" else if c = '"' then "\\\"" else String.singleton c)

/-- Body of the catch-all 500 response:
`JSON.stringify({error: "Internal Server Error", details: err.message})`. -/
def errorEnvelopeBody (msg : String) : String :=
  "\x7b\"error\":\"Internal Server Error\",\"details\":\"" ++ jsonEscape msg ++ "\"\x7d"

/-- Result of one inbound call: the outbound events, the response handed to
the caller, and the optional cache write (key = inbound request URL). -/
structure CallOutcome where
  events : List Event
  response : CallerResponse
  cachePut : Option (String × CallerResponse)
deriving Repr, DecidableEq

/-- Tail of the handler once the final backend response is in hand: non-ok
statuses are passed through verbatim with `Content-Type: application/json`;
ok statuses get the same plus `Cache-Control: public, max-age=300`, and a
status of exactly 200 is additionally written to the cache under the inbound
request URL. -/
def respondPass (r : BackendResponse) (requestUrl : String) :
    CallerResponse × Option (String × CallerResponse) :=
  if statusOk r.status then
    (⟨r.status, r.body, some "application/json", some "public, max-age=300"⟩,
     if r.status = 200 then
       some (requestUrl, ⟨r.status, r.body, some "application/json", some "public, max-age=300"⟩)
     else none)
  else
    (⟨r.status, r.body, some "application/json", none⟩, none)

/-- The pipeline after the endpoint check: acquire/forward/retry, then either
the catch-all 500 envelope or the pass-through of the final backend
response. -/
def handleCore (env : Env) (endpoint body requestUrl : String) (o : Oracle) : CallOutcome :=
  match forwardWithRetry env endpoint body o with
  | (evs, .error m) =>
    { events := evs
      response := ⟨500, errorEnvelopeBody m, some "application/json", none⟩
      cachePut := none }
  | (evs, .ok r) =>
    { events := evs
      response := (respondPass r requestUrl).1
      cachePut := (respondPass r requestUrl).2 }

/-- The exported `fetch` handler of one inbound call: strip `/api/` from the
pathname, reject an empty endpoint with 400, strip one more leading slash,
then run the pipeline. -/
def handleFetch (env : Env) (pathname body requestUrl : String) (o : Oracle) : CallOutcome :=
  if stripApi pathname = "" then
    { events := []
      response := ⟨400, missingEndpointBody, some "application/json", none⟩
      cachePut := none }
  else
    handleCore env (stripSlash (stripApi pathname)) body requestUrl o

/-- Event classifiers and counters over the trace. -/
def isAcquire : Event → Bool
  | .acquireToken _ => true
  | .forward _ => false

/-- True exactly on backend-forward events. -/
def isForward : Event → Bool
  | .acquireToken _ => false
  | .forward _ => true

/-- Number of token exchanges in a trace. -/
def acquireCount (evs : List Event) : Nat := evs.countP isAcquire

/-- Number of backend forwards in a trace. -/
def forwardCount (evs : List Event) : Nat := evs.countP isForward

/-- One inbound call together with its oracle, for statements about
sequences of calls. -/
structure InboundCall where
  pathname : String
  body : String
  requestUrl : String
  oracle : Oracle

/-- Run a sequence of inbound calls.  The source keeps no state across calls
(no token store; the cache lookup is commented out), so the calls are
independent. -/
def runCalls (env : Env) (calls : List InboundCall) : List CallOutcome :=
  calls.map fun c => handleFetch env c.pathname c.body c.requestUrl c.oracle

/-- Total number of token exchanges performed over a sequence of calls. -/
def totalAcquires (env : Env) (calls : List InboundCall) : Nat :=
  ((runCalls env calls).map fun out => acquireCount out.events).sum

/-- `listOccurs sub l`: `sub` occurs contiguously somewhere in `l`. -/
def listOccurs (sub : List Char) : List Char → Bool
  | [] => listStarts sub []
  | b :: bs => listStarts sub (b :: bs) || listOccurs sub bs

/-- `occursIn sub s`: `sub` occurs as a contiguous substring of `s`. -/
def occursIn (sub s : String) : Bool := listOccurs sub.data s.data

/-! Concrete fixtures used by witnesses and counterexamples. -/

/-- Concrete environment. -/
def e0 : Env := { clientId := "cid", clientSecret := "sec" }

/-- Provider response carrying token `tok`. -/
def prGood : ProviderResponse := { status := 200, body := "x", accessToken := some "tok" }

/-- Oracle of a call whose single forward returns 200 `[]`. -/
def oGood : Oracle :=
  { provider1 := .ok prGood
    backend1 := .ok { status := 200, body := "[]" }
    provider2 := .error "unused"
    backend2 := .error "unused" }

/-- Oracle of a call whose first forward returns 401 and whose retried
forward (with the re-acquired token `tok2`) returns 200. -/
def o401 : Oracle :=
  { provider1 := .ok prGood
    backend1 := .ok { status := 401, body := "unauth" }
    provider2 := .ok { status := 200, body := "x", accessToken := some "tok2" }
    backend2 := .ok { status := 200, body := "ok2" } }

/-- A cacheable inbound call with a successful oracle. -/
def cGood : InboundCall :=
  { pathname := "/api/games", body := "q", requestUrl := "u", oracle := oGood }

/-- Environment whose client secret happens to coincide with a word of the
fixed error envelope. -/
def eLeak : Env := { clientId := "cid", clientSecret := "error" }

/-- Oracle all of whose response bodies are the single character `x`. -/
def oPlain : Oracle :=
  { provider1 := .ok { status := 200, body := "x", accessToken := some "tok" }
    backend1 := .ok { status := 200, body := "x" }
    provider2 := .error "x"
    backend2 := .error "x" }

/-! Helper lemmas. -/

/-- `statusOk` holds at 200. -/
theorem statusOk_200 : statusOk 200 = true := by decide

/-- Shape of the caller response built from a final backend response. -/
theorem respondPass_fst (r : BackendResponse) (u : String) :
    (respondPass r u).1 =
      ⟨r.status, r.body, some "application/json",
        if statusOk r.status then some "public, max-age=300" else none⟩ := by
  unfold respondPass
  by_cases h : statusOk r.status = true <;> simp [h]

/-- Shape of the cache write decided from a final backend response. -/
theorem respondPass_snd (r : BackendResponse) (u : String) :
    (respondPass r u).2 =
      if r.status = 200 then some (u, (respondPass r u).1) else none := by
  unfold respondPass
  by_cases h : statusOk r.status = true
  · simp [h]
  · have h200 : ¬ r.status = 200 := by
      intro e
      rw [e] at h
      exact h statusOk_200
    simp [h, h200]

/-- Events of the pipeline are the events of the retry coordinator. -/
theorem handleCore_events (env : Env) (ep b u : String) (o : Oracle) :
    (handleCore env ep b u o).events = (forwardWithRetry env ep b o).1 := by
  unfold handleCore
  rcases h : forwardWithRetry env ep b o with ⟨evs, res⟩
  cases res <;> simp [h]

/-- Response of the pipeline as a function of the retry coordinator's
result. -/
theorem handleCore_response (env : Env) (ep b u : String) (o : Oracle) :
    (handleCore env ep b u o).response =
      (match (forwardWithRetry env ep b o).2 with
       | .error m => (⟨500, errorEnvelopeBody m, some "application/json", none⟩ : CallerResponse)
       | .ok r => (respondPass r u).1) := by
  unfold handleCore
  rcases h : forwardWithRetry env ep b o with ⟨evs, res⟩
  cases res <;> simp [h]

/-- Cache write of the pipeline as a function of the retry coordinator's
result. -/
theorem handleCore_cachePut (env : Env) (ep b u : String) (o : Oracle) :
    (handleCore env ep b u o).cachePut =
      (match (forwardWithRetry env ep b o).2 with
       | .error _ => none
       | .ok r => (respondPass r u).2) := by
  unfold handleCore
  rcases h : forwardWithRetry env ep b o with ⟨evs, res⟩
  cases res <;> simp [h]

/-- Every run of the retry coordinator performs one or two token
exchanges. -/
theorem acquire_bounds_fwr (env : Env) (ep b : String) (o : Oracle) :
    1 ≤ acquireCount (forwardWithRetry env ep b o).1 ∧
    acquireCount (forwardWithRetry env ep b o).1 ≤ 2 := by
  unfold forwardWithRetry
  repeat' split
  all_goals simp [acquireCount, isAcquire]

/-- Once a token is in hand, the retry coordinator forwards at least once. -/
theorem one_le_forward_fwr (env : Env) (ep b : String) (o : Oracle)
    (pr : ProviderResponse) (t : String)
    (hp1 : o.provider1 = .ok pr) (ht : getAppToken pr = .ok t) :
    1 ≤ forwardCount (forwardWithRetry env ep b o).1 := by
  unfold forwardWithRetry
  repeat' split
  all_goals simp_all [forwardCount, isForward]

/-- The result (as opposed to the event trace) of the retry coordinator does
not depend on the environment: the client id and secret only flow into the
outgoing requests. -/
theorem fwr_result_env (env env' : Env) (ep b : String) (o : Oracle) :
    (forwardWithRetry env ep b o).2 = (forwardWithRetry env' ep b o).2 := by
  unfold forwardWithRetry
  repeat' split
  all_goals simp_all

/-- Per-call lower bound on token exchanges: every inbound call that passes
the endpoint check performs at least one. -/
theorem one_le_acquire_call (env : Env) (p b u : String) (o : Oracle)
    (hep : stripApi p ≠ "") :
    1 ≤ acquireCount (handleFetch env p b u o).events := by
  unfold handleFetch
  rw [if_neg hep, handleCore_events]
  exact (acquire_bounds_fwr env (stripSlash (stripApi p)) b o).1


/-- Oracle whose first token exchange fails on the network with message
`boom`. -/
def oFail : Oracle :=
  { provider1 := .error "boom"
    backend1 := .error "x"
    provider2 := .error "x"
    backend2 := .error "x" }

/-- Oracle whose provider answers 200 with a whitespace-only
`access_token`. -/
def oBlank : Oracle :=
  { provider1 := .ok { status := 200, body := "x", accessToken := some "  " }
    backend1 := .error "x"
    provider2 := .error "x"
    backend2 := .error "x" }

/-! Claim theorems. -/

/-- C1 (counterexample): the source holds no token across inbound calls, so
a second call 60 seconds after a successful acquisition — far below the
55-minute TTL — performs the client-credentials exchange again: two
identical calls perform two exchanges. -/
theorem twoCalls_twoAcquires :
    (60 : Nat) < 55 * 60 ∧ totalAcquires e0 [cGood, cGood] = 2 := by decide

/-- C1 (amended): the Token Acquirer is invoked at least once on every
inbound call that passes the endpoint check, so a sequence of n such calls
performs at least n acquisitions no matter how closely they follow a
successful one — there is no fresh-token reuse across calls. -/
theorem everyCall_acquires (env : Env) (calls : List InboundCall)
    (h : ∀ c ∈ calls, stripApi c.pathname ≠ "") :
    calls.length ≤ totalAcquires env calls := by
  induction calls with
  | nil => simp [totalAcquires, runCalls]
  | cons c cs ih =>
    have hc := one_le_acquire_call env c.pathname c.body c.requestUrl c.oracle
      (h c (List.mem_cons_self c cs))
    have hcs := ih (fun d hd => h d (List.mem_cons_of_mem c hd))
    simp only [totalAcquires, runCalls, List.map_cons, List.sum_cons, List.length_cons] at *
    omega

/-- C1 (witness): the per-call acquisition bound at a concrete two-call
sequence. -/
theorem everyCall_acquires_witness :
    ([cGood, cGood] : List InboundCall).length ≤ totalAcquires e0 [cGood, cGood] :=
  everyCall_acquires e0 [cGood, cGood] (by decide)

/-- C2 (counterexample): the cache lookup is commented out in the source, so
even a call whose key holds the 200 entry stored by an identical earlier
call (the first conjunct shows this very call stores its 200 response under
its URL) still performs the token exchange and the backend forward instead
of being served from the cache. -/
theorem cachedEntry_not_served :
    (handleFetch e0 "/api/games" "q" "https://p/api/games" oGood).cachePut =
      some ("https://p/api/games",
        ⟨200, "[]", some "application/json", some "public, max-age=300"⟩) ∧
    acquireCount (handleFetch e0 "/api/games" "q" "https://p/api/games" oGood).events = 1 ∧
    forwardCount (handleFetch e0 "/api/games" "q" "https://p/api/games" oGood).events = 1 := by
  decide

/-- C2 (amended): the proxy never reads the cache: every request that passes
the endpoint check and obtains a token forwards to the backend at least
once, regardless of any stored entry — the cache is write-only. -/
theorem no_cache_read (env : Env) (p b u : String) (o : Oracle)
    (pr : ProviderResponse) (t : String)
    (hep : stripApi p ≠ "") (hp1 : o.provider1 = .ok pr)
    (ht : getAppToken pr = .ok t) :
    1 ≤ forwardCount (handleFetch env p b u o).events := by
  unfold handleFetch
  rw [if_neg hep, handleCore_events]
  exact one_le_forward_fwr env (stripSlash (stripApi p)) b o pr t hp1 ht

/-- C2 (witness): the forward bound at a concrete call. -/
theorem no_cache_read_witness :
    1 ≤ forwardCount (handleFetch e0 "/api/games" "q" "u" oGood).events :=
  no_cache_read e0 "/api/games" "q" "u" oGood prGood "tok" (by decide) rfl (by decide)

/-- C3: if the first forward returns 401, exactly one more token exchange
and one more forward occur — to the same URL with the same body, bearing the
newly acquired token — and the caller receives the second backend response's
status and body whatever that status is (in particular a second 401 is
surfaced as-is with no third attempt: the trace has exactly two forwards). -/
theorem retry401_exactly_once (env : Env) (p b u : String) (o : Oracle)
    (pr1 pr2 : ProviderResponse) (t1 t2 : String) (r1 r2 : BackendResponse)
    (hep : stripApi p ≠ "")
    (hp1 : o.provider1 = .ok pr1) (ht1 : getAppToken pr1 = .ok t1)
    (hb1 : o.backend1 = .ok r1) (h401 : r1.status = 401)
    (hp2 : o.provider2 = .ok pr2) (ht2 : getAppToken pr2 = .ok t2)
    (hb2 : o.backend2 = .ok r2) :
    (handleFetch env p b u o).events =
      [.acquireToken (tokenUrl env),
       .forward (mkForward env (stripSlash (stripApi p)) t1 b),
       .acquireToken (tokenUrl env),
       .forward (mkForward env (stripSlash (stripApi p)) t2 b)] ∧
    (handleFetch env p b u o).response.status = r2.status ∧
    (handleFetch env p b u o).response.body = r2.body := by
  have hfwr : forwardWithRetry env (stripSlash (stripApi p)) b o =
      ([.acquireToken (tokenUrl env),
        .forward (mkForward env (stripSlash (stripApi p)) t1 b),
        .acquireToken (tokenUrl env),
        .forward (mkForward env (stripSlash (stripApi p)) t2 b)], .ok r2) := by
    unfold forwardWithRetry
    simp [hp1, ht1, hb1, h401, hp2, ht2, hb2]
  refine ⟨?_, ?_, ?_⟩
  · unfold handleFetch
    rw [if_neg hep, handleCore_events, hfwr]
  · unfold handleFetch
    rw [if_neg hep, handleCore_response, hfwr]
    simp [respondPass_fst]
  · unfold handleFetch
    rw [if_neg hep, handleCore_response, hfwr]
    simp [respondPass_fst]

/-- C3 (witness): concrete 401-then-200 run. -/
theorem retry401_exactly_once_witness :
    (handleFetch e0 "/api/games" "q" "u" o401).events =
      [.acquireToken (tokenUrl e0),
       .forward (mkForward e0 (stripSlash (stripApi "/api/games")) "tok" "q"),
       .acquireToken (tokenUrl e0),
       .forward (mkForward e0 (stripSlash (stripApi "/api/games")) "tok2" "q")] ∧
    (handleFetch e0 "/api/games" "q" "u" o401).response.status = 200 ∧
    (handleFetch e0 "/api/games" "q" "u" o401).response.body = "ok2" :=
  retry401_exactly_once e0 "/api/games" "q" "u" o401 prGood
    ⟨200, "x", some "tok2"⟩ "tok" "tok2" ⟨401, "unauth"⟩ ⟨200, "ok2"⟩
    (by decide) rfl (by decide) rfl rfl rfl (by decide) rfl

/-- C4 (counterexample): the anchored regex `^\/api\//` requires the
trailing slash, so the path `/api` is not stripped to an empty endpoint:
instead of the claimed 400 with no outbound calls, the proxy acquires a
token and forwards to `https://api.igdb.com/v4/api`, here returning the
backend's 200. -/
theorem slashApi_not_rejected :
    (handleFetch e0 "/api" "" "u" oGood).response.status = 200 ∧
    (handleFetch e0 "/api" "" "u" oGood).events =
      [.acquireToken (tokenUrl e0), .forward (mkForward e0 "api" "tok" "")] := by
  decide

/-- C4 (amended): exactly the requests whose endpoint is empty after
stripping — that is, path `/api/` — are rejected with status 400, the fixed
JSON error body and `Content-Type: application/json`, with no call to the
identity provider or the backend; `/api` without the trailing slash is not
rejected but forwarded with endpoint `api`. -/
theorem emptyEndpoint_400 (env : Env) (p b u : String) (o : Oracle)
    (hep : stripApi p = "") :
    handleFetch env p b u o =
      { events := []
        response := ⟨400, missingEndpointBody, some "application/json", none⟩
        cachePut := none } := by
  unfold handleFetch
  rw [if_pos hep]

/-- C4 (witness): the 400 outcome at the concrete path `/api/`. -/
theorem emptyEndpoint_400_witness :
    handleFetch e0 "/api/" "" "u" oGood =
      { events := []
        response := ⟨400, missingEndpointBody, some "application/json", none⟩
        cachePut := none } :=
  emptyEndpoint_400 e0 "/api/" "" "u" oGood (by decide)

/-- C5: a response is written to the cache exactly when the caller-visible
status is 200 (the pass-through mirrors the backend status, so exactly the
backend 200s): the stored entry is the very response returned, keyed by the
inbound request URL, and a stored response carries
`Cache-Control: public, max-age=300`. -/
theorem cacheWrite_iff_200 (env : Env) (p b u : String) (o : Oracle) :
    (handleFetch env p b u o).cachePut =
      (if (handleFetch env p b u o).response.status = 200
       then some (u, (handleFetch env p b u o).response) else none) ∧
    ((handleFetch env p b u o).response.status = 200 →
      (handleFetch env p b u o).response.cacheControl = some "public, max-age=300") := by
  unfold handleFetch
  by_cases hep : stripApi p = ""
  · rw [if_pos hep]
    simp
  · rw [if_neg hep, handleCore_cachePut, handleCore_response]
    cases hres : (forwardWithRetry env (stripSlash (stripApi p)) b o).2 with
    | error m => simp
    | ok r =>
      constructor
      · simp [respondPass_snd, respondPass_fst]
      · intro h200
        simp only [respondPass_fst] at h200 ⊢
        simp_all [statusOk_200]

/-- C5 (witness): the stored entry and directive at a concrete 200 run. -/
theorem cacheWrite_iff_200_witness :
    (handleFetch e0 "/api/games" "q" "u" oGood).cachePut =
      (if (handleFetch e0 "/api/games" "q" "u" oGood).response.status = 200
       then some ("u", (handleFetch e0 "/api/games" "q" "u" oGood).response) else none) ∧
    (handleFetch e0 "/api/games" "q" "u" oGood).response.cacheControl =
      some "public, max-age=300" :=
  ⟨(cacheWrite_iff_200 e0 "/api/games" "q" "u" oGood).1,
   (cacheWrite_iff_200 e0 "/api/games" "q" "u" oGood).2 (by decide)⟩

/-- C6: whenever the pipeline ends with a backend response (no internal
failure) — non-200 and non-401 statuses and a second 401 after the retry
included — the caller's response mirrors the backend status exactly, passes
the backend body through unmodified, has `Content-Type: application/json`,
and carries `Cache-Control: public, max-age=300` exactly on ok (2xx)
statuses. -/
theorem passThrough_mirrors_backend (env : Env) (p b u : String) (o : Oracle)
    (evs : List Event) (r : BackendResponse)
    (hep : stripApi p ≠ "")
    (hok : forwardWithRetry env (stripSlash (stripApi p)) b o = (evs, .ok r)) :
    (handleFetch env p b u o).response.status = r.status ∧
    (handleFetch env p b u o).response.body = r.body ∧
    (handleFetch env p b u o).response.contentType = some "application/json" ∧
    (handleFetch env p b u o).response.cacheControl =
      (if statusOk r.status then some "public, max-age=300" else none) := by
  unfold handleFetch
  rw [if_neg hep, handleCore_response, hok]
  simp [respondPass_fst]

/-- C6 (witness): mirroring at a concrete 200 run. -/
theorem passThrough_mirrors_backend_witness :
    (handleFetch e0 "/api/games" "q" "u" oGood).response.status = 200 ∧
    (handleFetch e0 "/api/games" "q" "u" oGood).response.body = "[]" ∧
    (handleFetch e0 "/api/games" "q" "u" oGood).response.contentType =
      some "application/json" ∧
    (handleFetch e0 "/api/games" "q" "u" oGood).response.cacheControl =
      (if statusOk 200 then some "public, max-age=300" else none) :=
  passThrough_mirrors_backend e0 "/api/games" "q" "u" oGood
    [.acquireToken (tokenUrl e0), .forward (mkForward e0 "games" "tok" "q")]
    ⟨200, "[]"⟩ (by decide) (by decide)

/-- C7: every internal failure — provider network failure, token-format
failure, or backend transport failure, on first attempt or on the retry —
yields status 500 with the uniform JSON envelope (an `error` field plus a
`details` field holding the failure message) and
`Content-Type: application/json`; the body is exactly the envelope (never
partially a backend pass-through) and nothing is cached. -/
theorem internalFailure_500 (env : Env) (p b u : String) (o : Oracle)
    (evs : List Event) (m : String)
    (hep : stripApi p ≠ "")
    (hfail : forwardWithRetry env (stripSlash (stripApi p)) b o = (evs, .error m)) :
    (handleFetch env p b u o).response =
      ⟨500, errorEnvelopeBody m, some "application/json", none⟩ ∧
    (handleFetch env p b u o).cachePut = none := by
  unfold handleFetch
  rw [if_neg hep, handleCore_response, handleCore_cachePut, hfail]
  simp

/-- C7 (witness): the envelope at a concrete provider network failure. -/
theorem internalFailure_500_witness :
    (handleFetch e0 "/api/games" "q" "u" oFail).response =
      ⟨500, errorEnvelopeBody "boom", some "application/json", none⟩ ∧
    (handleFetch e0 "/api/games" "q" "u" oFail).cachePut = none :=
  internalFailure_500 e0 "/api/games" "q" "u" oFail
    [.acquireToken (tokenUrl e0)] "boom" (by decide) (by decide)

/-- C8: a provider response with a success status whose `access_token` is
absent, empty, or whitespace-only after trimming makes acquisition fail with
the invalid-format error; the inbound call performs no backend forward and
ends in the 500 envelope. -/
theorem blankToken_no_forward (env : Env) (p b u : String) (o : Oracle)
    (pr : ProviderResponse)
    (hep : stripApi p ≠ "")
    (hp1 : o.provider1 = .ok pr)
    (hok : statusOk pr.status = true)
    (hblank : pr.accessToken = none ∨ ∃ s, pr.accessToken = some s ∧ trimStr s = "") :
    getAppToken pr = .error "Invalid response format from token endpoint" ∧
    forwardCount (handleFetch env p b u o).events = 0 ∧
    (handleFetch env p b u o).response.status = 500 := by
  have hga : getAppToken pr = .error "Invalid response format from token endpoint" := by
    rcases hblank with hnone | ⟨s, hsome, hts⟩
    · simp [getAppToken, hok, hnone]
    · simp [getAppToken, hok, hsome, hts]
  refine ⟨hga, ?_, ?_⟩
  · unfold handleFetch
    rw [if_neg hep, handleCore_events]
    unfold forwardWithRetry
    simp [hp1, hga, forwardCount, isForward]
  · unfold handleFetch
    rw [if_neg hep, handleCore_response]
    unfold forwardWithRetry
    simp [hp1, hga]

/-- C8 (witness): the whitespace-only token `"  "` at a concrete call. -/
theorem blankToken_no_forward_witness :
    getAppToken ⟨200, "x", some "  "⟩ =
      .error "Invalid response format from token endpoint" ∧
    forwardCount (handleFetch e0 "/api/games" "q" "u" oBlank).events = 0 ∧
    (handleFetch e0 "/api/games" "q" "u" oBlank).response.status = 500 :=
  blankToken_no_forward e0 "/api/games" "q" "u" oBlank ⟨200, "x", some "  "⟩
    (by decide) rfl (by decide) (Or.inr ⟨"  ", rfl, by decide⟩)

/-- C9 (counterexample): with client secret `error` — a word of the proxy's
own fixed 400 envelope — and the oracle `oPlain` all of whose response
bodies are the single character `x` (so neither the provider body nor the
backend body contains the secret), the response to `/api/` contains the
secret as a substring: the claim as stated is false. -/
theorem secret_substring_leak :
    eLeak.clientSecret = "error" ∧
    occursIn eLeak.clientSecret "x" = false ∧
    occursIn eLeak.clientSecret
      (handleFetch eLeak "/api/" "" "u" oPlain).response.body = true := by
  decide

/-- C9 (amended): the client secret cannot influence any caller-visible
output: with the same request and the same provider/backend responses, two
runs that differ only in the client secret produce identical caller
responses and identical cache writes — the secret flows only into the
outgoing token-exchange URL, so it can reach a response only through the
provider or backend bodies.  (As stated the claim fails only when the secret
coincides with text of the proxy's own fixed envelopes.) -/
theorem secret_noninterference (cid s1 s2 p b u : String) (o : Oracle) :
    (handleFetch ⟨cid, s1⟩ p b u o).response =
      (handleFetch ⟨cid, s2⟩ p b u o).response ∧
    (handleFetch ⟨cid, s1⟩ p b u o).cachePut =
      (handleFetch ⟨cid, s2⟩ p b u o).cachePut := by
  unfold handleFetch
  by_cases hep : stripApi p = ""
  · rw [if_pos hep, if_pos hep]
    exact ⟨rfl, rfl⟩
  · rw [if_neg hep, if_neg hep,
        handleCore_response ⟨cid, s1⟩, handleCore_response ⟨cid, s2⟩,
        handleCore_cachePut ⟨cid, s1⟩, handleCore_cachePut ⟨cid, s2⟩,
        fwr_result_env ⟨cid, s1⟩ ⟨cid, s2⟩ (stripSlash (stripApi p)) b o]
    exact ⟨rfl, rfl⟩

/-- C10: a path that does not start with `/api/` is not rejected — the
endpoint check sees the whole non-empty pathname — and the pathname minus
one leading slash becomes the backend endpoint, so `/games` is handled
exactly like `/api/games`, and the root path `/` produces a forward to the
bare base URL `https://api.igdb.com/v4/` rather than a 400. -/
theorem nonApi_path_forwarded (env : Env) (p b u : String) (o : Oracle)
    (pr : ProviderResponse) (t : String) (r1 : BackendResponse)
    (hnp : startsW "/api/" p = false) (hne : p ≠ "")
    (hp1 : o.provider1 = .ok pr) (ht : getAppToken pr = .ok t)
    (hb1 : o.backend1 = .ok r1) (h401 : ¬ r1.status = 401) :
    (handleFetch env p b u o).events =
      [.acquireToken (tokenUrl env), .forward (mkForward env (stripSlash p) t b)] ∧
    (mkForward env (stripSlash p) t b).url = igdbBase ++ stripSlash p ∧
    (handleFetch env p b u o).response.status = r1.status ∧
    handleFetch env "/games" b u o = handleFetch env "/api/games" b u o := by
  have hsp : stripApi p = p := by
    unfold stripApi
    rw [hnp]
    simp
  have hfwr : forwardWithRetry env (stripSlash p) b o =
      ([.acquireToken (tokenUrl env), .forward (mkForward env (stripSlash p) t b)],
       .ok r1) := by
    unfold forwardWithRetry
    simp [hp1, ht, hb1, h401]
  refine ⟨?_, rfl, ?_, ?_⟩
  · unfold handleFetch
    rw [hsp, if_neg hne, handleCore_events, hfwr]
  · unfold handleFetch
    rw [hsp, if_neg hne, handleCore_response, hfwr]
    simp [respondPass_fst]
  · have h1 : stripSlash (stripApi "/games") = stripSlash (stripApi "/api/games") := by
      decide
    unfold handleFetch
    rw [if_neg (by decide : ¬ stripApi "/games" = ""),
        if_neg (by decide : ¬ stripApi "/api/games" = ""), h1]

/-- C10 (witness): the root path `/` at a concrete run. -/
theorem nonApi_path_forwarded_witness :
    (handleFetch e0 "/" "" "u" oGood).events =
      [.acquireToken (tokenUrl e0), .forward (mkForward e0 (stripSlash "/") "tok" "")] ∧
    (mkForward e0 (stripSlash "/") "tok" "").url = igdbBase ++ stripSlash "/" ∧
    (handleFetch e0 "/" "" "u" oGood).response.status = 200 ∧
    handleFetch e0 "/games" "" "u" oGood = handleFetch e0 "/api/games" "" "u" oGood :=
  nonApi_path_forwarded e0 "/" "" "u" oGood prGood "tok" ⟨200, "[]"⟩
    (by decide) (by decide) rfl (by decide) rfl (by decide)

end IgdbProxy
